import Mathlib

/-!
Verification of the Document Transparency Scoring Pipeline
(src/privacy/privacy_policy_analyzer.py).

Shallow embedding conventions:
* Python strings are modelled as lists of character codes (`List Nat`);
  `strCodes` converts a Lean string literal to that representation.
* Python floats are modelled as rationals (`ℚ`).  Python's builtin
  `round(x, n)` rounds half to even; it is modelled by `rhe` (round half
  to even, to an integer) and `round3` / `round2` (round to 3 / 2
  decimal places).
* The external `textstat` library is kept abstract: a `TextstatLib`
  record of arbitrary functions from text to numbers.  The code under
  verification only moves those outputs around, so theorems quantify
  over the library, or instantiate it with the arbitrary `zeroTextstat`
  where a closed statement is needed.
* `requests` / network effects are modelled by an environment
  `env : String → Option (List Nat)` giving, per URL, the value returned
  by `extract_text_from_url`: `none` models the exception path of its
  `try`/`except` (which makes the method return Python `None`), and
  `some t` the successfully extracted and sanitized text.
* Wall-clock data (the `Analysis_Date` result field) and console/file
  output are omitted: they carry no scoring logic.
-/

namespace PPA

/-- Python builtin `round` on a rational: round half to even, to ℤ. -/
def rhe (x : ℚ) : ℤ :=
  if x - ⌊x⌋ < 1/2 then ⌊x⌋
  else if 1/2 < x - ⌊x⌋ then ⌊x⌋ + 1
  else if ⌊x⌋ % 2 = 0 then ⌊x⌋ else ⌊x⌋ + 1

/-- Python `round(x, 3)`. -/
def round3 (x : ℚ) : ℚ := (rhe (x * 1000) : ℚ) / 1000

/-- Python `round(x, 2)`. -/
def round2 (x : ℚ) : ℚ := (rhe (x * 100) : ℚ) / 100

/-- Character codes of a string literal (model of a Python `str`). -/
def strCodes (s : String) : List Nat := s.toList.map Char.toNat

/-- Python `str` whitespace (space, tab, LF, CR, VT, FF), as used by
`str.split()` and the regex class `\s`. -/
def isWsCode (c : Nat) : Bool :=
  c = 32 || c = 9 || c = 10 || c = 13 || c = 11 || c = 12

/-- ASCII part of Python `str.lower` (the analyzed keyword vocabulary is
ASCII). -/
def toLowerCode (c : Nat) : Nat := if 65 ≤ c && c ≤ 90 then c + 32 else c

/-- Does `t` start with `kw`?  (Substring test at one position.) -/
def startsWith : List Nat → List Nat → Bool
  | [], _ => true
  | _ :: _, [] => false
  | k :: ks, c :: cs => if k = c then startsWith ks cs else false

/-- Worker for `countOcc`: scans `t` left to right; `skip` is the number
of positions still to be skipped after a match was consumed (so matches
do not overlap, exactly as Python `str.count`). -/
def countOccS (kw : List Nat) : List Nat → Nat → Nat
  | [], _ => 0
  | _ :: rest, skip + 1 => countOccS kw rest skip
  | c :: rest, 0 =>
    if startsWith kw (c :: rest) then 1 + countOccS kw rest (kw.length - 1)
    else countOccS kw rest 0

/-- Python `t.count(kw)`: number of non-overlapping occurrences of `kw`
in `t`, scanning left to right.  (Used only with the fixed, nonempty
keywords below, where this agrees with Python `str.count`.) -/
def countOcc (kw t : List Nat) : Nat := countOccS kw t 0

/-- The fixed third-party-disclosure vocabulary
(`analyze_third_party_mentions`, lines 83-87). -/
def keywords : List (List Nat) :=
  [strCodes "third party", strCodes "third-party", strCodes "partners",
   strCodes "affiliates", strCodes "share with", strCodes "disclose to",
   strCodes "sell", strCodes "transfer", strCodes "advertisers",
   strCodes "service providers", strCodes "vendors"]

/-- `analyze_third_party_mentions` (lines 75-90): lowercase the text and
sum the per-keyword substring counts. -/
def analyze_third_party_mentions (text : List Nat) : Nat :=
  if text = [] then 0
  else
    let text_lower := text.map toLowerCode
    (keywords.map (fun kw => countOcc kw text_lower)).sum

/-- Worker for `wordCount`; the flag records whether the scan is inside
a word. -/
def countWordsAux : Bool → List Nat → Nat
  | _, [] => 0
  | inWord, c :: rest =>
    if isWsCode c then countWordsAux false rest
    else (if inWord then 0 else 1) + countWordsAux true rest

/-- Python `len(text.split())` (line 171): number of maximal
non-whitespace runs. -/
def wordCount (t : List Nat) : Nat := countWordsAux false t

/-- Leading and trailing whitespace removal (the `strip=True` of
`soup.get_text(separator=' ', strip=True)`, line 44, for prose
content). -/
def stripCodes (t : List Nat) : List Nat :=
  ((t.dropWhile (fun c => isWsCode c)).reverse.dropWhile
    (fun c => isWsCode c)).reverse

/-- Worker for `collapseWs`; the flag records whether the previous
character was whitespace (so a run contributes one space). -/
def collapseWsAux : Bool → List Nat → List Nat
  | _, [] => []
  | prevWs, c :: rest =>
    if isWsCode c then
      if prevWs then collapseWsAux true rest
      else 32 :: collapseWsAux true rest
    else c :: collapseWsAux false rest

/-- `re.sub(r'\s+', ' ', text)` (line 47): collapse every whitespace run
to a single space. -/
def collapseWs (t : List Nat) : List Nat := collapseWsAux false t

/-- The pure sanitization applied to fetched content (lines 44-49):
markup-free prose is stripped and whitespace-collapsed.  There is no
length check anywhere in this path. -/
def sanitize (raw : List Nat) : List Nat := collapseWs (stripCodes raw)

/-- The value `extract_text_from_url` computes from raw content it did
receive (lines 37-49): the sanitized text, returned unconditionally —
the `except` branch (modelled by `none` in the batch environment) is
reached only on network/transport errors, never on short or empty
text. -/
def extract_text_core (raw : List Nat) : Option (List Nat) :=
  some (sanitize raw)

/-- The external `textstat` statistics library, abstract: one numeric
function per formula used by `analyze_readability`. -/
structure TextstatLib where
  flesch_reading_ease : List Nat → ℚ
  flesch_kincaid_grade : List Nat → ℚ
  gunning_fog : List Nat → ℚ
  smog_index : List Nat → ℚ
  coleman_liau_index : List Nat → ℚ
  automated_readability_index : List Nat → ℚ
  dale_chall_readability_score : List Nat → ℚ
  difficult_words : List Nat → ℚ
  linsear_write_formula : List Nat → ℚ
  text_standard : List Nat → ℚ

/-- The fixed-shape readability record built by `analyze_readability`
(lines 60-71): a Python dict with exactly these ten keys. -/
structure Metrics where
  flesch_reading_ease : ℚ
  flesch_kincaid_grade : ℚ
  gunning_fog : ℚ
  smog_index : ℚ
  coleman_liau_index : ℚ
  automated_readability_index : ℚ
  dale_chall_readability_score : ℚ
  difficult_words : ℚ
  linsear_write_formula : ℚ
  text_standard : ℚ

/-- `analyze_readability` (lines 55-73).  The input is `Option` because
Python may pass `None`; `if not text or len(text) < 100: return None`
covers `None`, the empty string, and short text. -/
def analyze_readability (lib : TextstatLib) (text : Option (List Nat)) :
    Option Metrics :=
  match text with
  | none => none
  | some t =>
    if t.isEmpty || t.length < 100 then none
    else some
      { flesch_reading_ease := lib.flesch_reading_ease t
        flesch_kincaid_grade := lib.flesch_kincaid_grade t
        gunning_fog := lib.gunning_fog t
        smog_index := lib.smog_index t
        coleman_liau_index := lib.coleman_liau_index t
        automated_readability_index := lib.automated_readability_index t
        dale_chall_readability_score := lib.dale_chall_readability_score t
        difficult_words := lib.difficult_words t
        linsear_write_formula := lib.linsear_write_formula t
        text_standard := lib.text_standard t }

/-- `calculate_read_score` (lines 92-117).  `none` models Python `None`
(and the falsy empty dict): `if not metrics: return 0.0`. -/
def calculate_read_score (metrics : Option Metrics) : ℚ :=
  match metrics with
  | none => 0
  | some m =>
    let flesch_normalized : ℚ := max 0 (min 100 m.flesch_reading_ease) / 100
    let grade_level := m.flesch_kincaid_grade
    let grade_normalized : ℚ := max 0 (1 - min grade_level 20 / 20)
    let text_std := m.text_standard
    let text_std_normalized : ℚ := max 0 (1 - min text_std 20 / 20)
    let read_score :=
      (flesch_normalized + grade_normalized + text_std_normalized) / 3
    round3 read_score

/-- The disclosure density `mentions_per_1000` computed inside
`calculate_third_score` (lines 129-130): mentions per 1000 words with
the word count estimated as `text_length / 5`. -/
def densityOf (c l : ℕ) : ℚ :=
  if l = 0 then 0 else (c : ℚ) / ((l : ℚ) / 5) * 1000

/-- `calculate_third_score` (lines 119-141). -/
def calculate_third_score (third_party_count text_length : ℕ) : ℚ :=
  if text_length = 0 then 0
  else
    let words : ℚ := (text_length : ℚ) / 5
    let mentions_per_1000 : ℚ :=
      if 0 < words then (third_party_count : ℚ) / words * 1000 else 0
    let score : ℚ :=
      if mentions_per_1000 < 5 then mentions_per_1000 / 5
      else if mentions_per_1000 ≤ 15 then 1
      else max (1/2) (1 - (mentions_per_1000 - 15) / 20)
    round3 score

/-- `calculate_p6_score` (lines 143-154). -/
def calculate_p6_score (read_score third_score : ℚ) : ℚ :=
  round3 (1/2 * read_score + 1/2 * third_score)

/-- The per-document result record built by `analyze_platform`
(lines 200-214); the wall-clock `Analysis_Date` field is omitted. -/
structure AnalysisResult where
  platform : String
  url : String
  word_count : ℕ
  character_count : ℕ
  flesch_reading_ease : ℚ
  flesch_kincaid_grade : ℚ
  gunning_fog : ℚ
  text_standard : ℚ
  third_party_mentions : ℕ
  read_score : ℚ
  third_score : ℚ
  p6_score : ℚ

/-- `analyze_platform` (lines 156-216): fetch (via `env`), guard
`if not text`, readability guard, then scoring. -/
def analyze_platform (lib : TextstatLib)
    (env : String → Option (List Nat)) (platform url : String) :
    Option AnalysisResult :=
  match env url with
  | none => none
  | some text =>
    if text.isEmpty then none
    else
      match analyze_readability lib (some text) with
      | none => none
      | some metrics =>
        let third_party_count := analyze_third_party_mentions text
        let read_score := calculate_read_score (some metrics)
        let third_score := calculate_third_score third_party_count text.length
        let p6_score := calculate_p6_score read_score third_score
        some
          { platform := platform
            url := url
            word_count := wordCount text
            character_count := text.length
            flesch_reading_ease := round2 metrics.flesch_reading_ease
            flesch_kincaid_grade := round2 metrics.flesch_kincaid_grade
            gunning_fog := round2 metrics.gunning_fog
            text_standard := round2 metrics.text_standard
            third_party_mentions := third_party_count
            read_score := read_score
            third_score := third_score
            p6_score := p6_score }

/-- The mutable state of a `PrivacyPolicyAnalyzer` instance
(`__init__`, lines 18-26): the policy table and the accumulated
`self.results` list. -/
structure AnalyzerState where
  policies : List (String × String)
  results : List AnalysisResult

/-- The loop body of `analyze_all` (lines 224-227): append each truthy
per-platform result to the accumulated list. -/
def analyzeAllLoop (lib : TextstatLib) (env : String → Option (List Nat)) :
    List (String × String) → List AnalysisResult → List AnalysisResult
  | [], acc => acc
  | pu :: rest, acc =>
    match analyze_platform lib env pu.1 pu.2 with
    | some r => analyzeAllLoop lib env rest (acc ++ [r])
    | none => analyzeAllLoop lib env rest acc

/-- `analyze_all` (lines 218-229): runs the loop over `self.policies`
starting from the current `self.results`, stores the grown list back in
the instance, and returns it. -/
def analyze_all (lib : TextstatLib) (env : String → Option (List Nat))
    (st : AnalyzerState) : AnalyzerState × List AnalysisResult :=
  let rs := analyzeAllLoop lib env st.policies st.results
  (⟨st.policies, rs⟩, rs)

/-- The per-batch successful results, in order (what one `analyze_all`
call contributes). -/
def batchResults (lib : TextstatLib) (env : String → Option (List Nat))
    (ps : List (String × String)) : List AnalysisResult :=
  ps.filterMap (fun pu => analyze_platform lib env pu.1 pu.2)

/-- The fixed policy table of `__init__` (lines 19-24). -/
def initPolicies : List (String × String) :=
  [("Meta", "https://www.facebook.com/privacy/policy/"),
   ("Google", "https://policies.google.com/privacy"),
   ("Microsoft", "https://privacy.microsoft.com/en-us/privacystatement"),
   ("Proton", "https://proton.me/legal/privacy")]

/-- A fresh `PrivacyPolicyAnalyzer()` (lines 18-26). -/
def initState : AnalyzerState := ⟨initPolicies, []⟩

/-- `generate_report` (lines 231-288): with no results it prints a line
and returns Python `None` (modelled `none`); otherwise it builds and
returns the DataFrame (modelled as the result list itself — the report
rendering carries no further logic relevant to the claims). -/
def generate_report (results : List AnalysisResult) :
    Option (List AnalysisResult) :=
  if results.isEmpty then none else some results

/-- `main` (lines 307-325): fresh analyzer, `analyze_all`,
`generate_report`, then the completion banner — unconditionally.  The
`Except` wrapper is the error channel a batch-level failure signal
would use; the source never raises, so the value is always
`Except.ok` of the (possibly absent) report. -/
def mainRun (lib : TextstatLib) (env : String → Option (List Nat)) :
    Except String (Option (List AnalysisResult)) :=
  Except.ok (generate_report (analyze_all lib env initState).2)

/-- An arbitrary concrete instantiation of the external statistics
library, for closed statements whose truth does not depend on it. -/
def zeroTextstat : TextstatLib :=
  { flesch_reading_ease := fun _ => 0
    flesch_kincaid_grade := fun _ => 0
    gunning_fog := fun _ => 0
    smog_index := fun _ => 0
    coleman_liau_index := fun _ => 0
    automated_readability_index := fun _ => 0
    dale_chall_readability_score := fun _ => 0
    difficult_words := fun _ => 0
    linsear_write_formula := fun _ => 0
    text_standard := fun _ => 0 }

/-- A metrics record with a negative Flesch-Kincaid grade (-3.4, the
formula's minimum on real text) and maximal reading ease. -/
def negGradeMetrics : Metrics :=
  { flesch_reading_ease := 100
    flesch_kincaid_grade := -17/5
    gunning_fog := 0
    smog_index := 0
    coleman_liau_index := 0
    automated_readability_index := 0
    dale_chall_readability_score := 0
    difficult_words := 0
    linsear_write_formula := 0
    text_standard := 0 }

/-- A metrics record of worst-case readability: zero ease, grade
estimates at or beyond the grade-20 cap. -/
def worstMetrics : Metrics :=
  { flesch_reading_ease := -10
    flesch_kincaid_grade := 25
    gunning_fog := 25
    smog_index := 25
    coleman_liau_index := 25
    automated_readability_index := 25
    dale_chall_readability_score := 25
    difficult_words := 400
    linsear_write_formula := 25
    text_standard := 25 }

/-- The five character codes of the block "sell " (keyword + space). -/
def sellW : List Nat := [115, 101, 108, 108, 32]

/-- The two character codes of the filler block "x " (word + space). -/
def xW : List Nat := [120, 32]

/-- `n` copies of the block `w`, concatenated. -/
def repW (w : List Nat) : Nat → List Nat
  | 0 => []
  | n + 1 => w ++ repW w n

/-- A 1000-word prose text with exactly 10 keyword matches but only
2029 characters: ten words "sell" then 990 filler words "x",
space-separated (no trailing space). -/
def T1 : List Nat := repW sellW 10 ++ repW xW 989 ++ [120]

/-- A 5000-character text with exactly 10 keyword matches: ten blocks
"sell " then 4950 letters "x". -/
def T2 : List Nat := repW sellW 10 ++ List.replicate 4950 120

/-- A 50-character text (above empty, below the 100-character
threshold). -/
def shortText : List Nat := List.replicate 50 97

/-- A 100-character text (at the analysis threshold). -/
def goodText : List Nat := List.replicate 100 97

/-- Environment where every fetch fails (network error for every
URL). -/
def envAllFail : String → Option (List Nat) := fun _ => none

/-- Environment where every fetch succeeds but yields only 50
characters of text. -/
def envShort : String → Option (List Nat) := fun _ => some shortText

/-- Environment where the URL "good" yields 100 characters and every
other fetch fails. -/
def envMixed : String → Option (List Nat) :=
  fun u => if u = "good" then some goodText else none

/-- A one-document policy table. -/
def psSingle : List (String × String) := [("A", "u")]

/-- A two-document policy table for `envMixed`: one fetchable document
and one failing one. -/
def psMixed : List (String × String) := [("A", "good"), ("B", "bad")]

/-! Rounding lemmas. -/

theorem rhe_floor_le (x : ℚ) : ⌊x⌋ ≤ rhe x := by
  unfold rhe; split_ifs <;> omega

theorem rhe_le_floor_add_one (x : ℚ) : rhe x ≤ ⌊x⌋ + 1 := by
  unfold rhe; split_ifs <;> omega

theorem rhe_mono {x y : ℚ} (h : x ≤ y) : rhe x ≤ rhe y := by
  rcases eq_or_lt_of_le (Int.floor_le_floor h) with hf | hf
  · have hr : x - (⌊y⌋ : ℚ) ≤ y - (⌊y⌋ : ℚ) := by linarith
    unfold rhe
    rw [hf]
    split_ifs <;> first | omega | linarith
  · calc rhe x ≤ ⌊x⌋ + 1 := rhe_le_floor_add_one x
    _ ≤ ⌊y⌋ := by omega
    _ ≤ rhe y := rhe_floor_le y

theorem round3_mono {x y : ℚ} (h : x ≤ y) : round3 x ≤ round3 y := by
  unfold round3
  have h2 : rhe (x * 1000) ≤ rhe (y * 1000) := rhe_mono (by linarith)
  have h3 : ((rhe (x * 1000) : ℤ) : ℚ) ≤ ((rhe (y * 1000) : ℤ) : ℚ) := by
    exact_mod_cast h2
  linarith

theorem round3_one : round3 1 = 1 := by norm_num [round3, rhe]

theorem round3_half : round3 (1/2) = 1/2 := by norm_num [round3, rhe]

theorem round3_zero : round3 0 = 0 := by norm_num [round3, rhe]

/-! Shape of the THIRD sub-score. -/

theorem calculate_third_score_eq (c l : ℕ) (hl : l ≠ 0) :
    calculate_third_score c l =
      round3 (if densityOf c l < 5 then densityOf c l / 5
              else if densityOf c l ≤ 15 then 1
              else max (1/2) (1 - (densityOf c l - 15) / 20)) := by
  have hp : 0 < (l : ℚ) / 5 := by
    have : 0 < (l : ℚ) := by exact_mod_cast Nat.pos_of_ne_zero hl
    linarith
  unfold calculate_third_score densityOf
  simp only [hl, if_false, if_neg, hp, if_pos, if_true]

theorem densityOf_nonneg (c l : ℕ) : 0 ≤ densityOf c l := by
  unfold densityOf
  split_ifs with h
  · exact le_refl 0
  · positivity

/-- C2 (amended): as a function of the disclosure density
`mentions_per_1000_words`, `calculate_third_score` returns exactly 1.0
for every density in [5,15]; below 5 it returns density/5 rounded to 3
decimal places (hence non-decreasing there, and strictly increasing
before rounding); above 15 it returns max(0.5, 1-(density-15)/20)
rounded to 3 decimal places, is non-increasing there, and never returns
less than 0.5. -/
theorem third_score_shape_of_density :
    (∀ c l : ℕ, l ≠ 0 → 5 ≤ densityOf c l → densityOf c l ≤ 15 →
      calculate_third_score c l = 1) ∧
    (∀ c l : ℕ, l ≠ 0 → densityOf c l < 5 →
      calculate_third_score c l = round3 (densityOf c l / 5)) ∧
    (∀ c₁ l₁ c₂ l₂ : ℕ, l₁ ≠ 0 → l₂ ≠ 0 →
      densityOf c₁ l₁ ≤ densityOf c₂ l₂ → densityOf c₂ l₂ < 5 →
      calculate_third_score c₁ l₁ ≤ calculate_third_score c₂ l₂) ∧
    (∀ c₁ l₁ c₂ l₂ : ℕ, l₁ ≠ 0 → l₂ ≠ 0 →
      densityOf c₁ l₁ < densityOf c₂ l₂ → densityOf c₂ l₂ < 5 →
      densityOf c₁ l₁ / 5 < densityOf c₂ l₂ / 5) ∧
    (∀ c l : ℕ, l ≠ 0 → 15 < densityOf c l →
      calculate_third_score c l =
        round3 (max (1/2) (1 - (densityOf c l - 15) / 20)) ∧
      1/2 ≤ calculate_third_score c l) ∧
    (∀ c₁ l₁ c₂ l₂ : ℕ, l₁ ≠ 0 → l₂ ≠ 0 → 15 < densityOf c₁ l₁ →
      densityOf c₁ l₁ ≤ densityOf c₂ l₂ →
      calculate_third_score c₂ l₂ ≤ calculate_third_score c₁ l₁) := by
  refine ⟨?_, ?_, ?_, ?_, ?_, ?_⟩
  · intro c l hl h5 h15
    rw [calculate_third_score_eq c l hl, if_neg (by linarith), if_pos h15]
    exact round3_one
  · intro c l hl h5
    rw [calculate_third_score_eq c l hl, if_pos h5]
  · intro c₁ l₁ c₂ l₂ hl₁ hl₂ hle h5
    rw [calculate_third_score_eq c₁ l₁ hl₁, if_pos (by linarith),
      calculate_third_score_eq c₂ l₂ hl₂, if_pos h5]
    exact round3_mono (by linarith)
  · intro c₁ l₁ c₂ l₂ _ _ hlt _
    linarith
  · intro c l hl h15
    rw [calculate_third_score_eq c l hl, if_neg (by linarith),
      if_neg (by linarith)]
    refine ⟨rfl, ?_⟩
    have h := round3_mono
      (le_max_left (1/2 : ℚ) (1 - (densityOf c l - 15) / 20))
    rw [round3_half] at h
    exact h
  · intro c₁ l₁ c₂ l₂ hl₁ hl₂ h15 hle
    rw [calculate_third_score_eq c₁ l₁ hl₁, if_neg (by linarith),
      if_neg (by linarith), calculate_third_score_eq c₂ l₂ hl₂,
      if_neg (by linarith), if_neg (by linarith)]
    have hm : max (1/2 : ℚ) (1 - (densityOf c₂ l₂ - 15) / 20) ≤
        max (1/2 : ℚ) (1 - (densityOf c₁ l₁ - 15) / 20) :=
      max_le_max (le_refl _) (by linarith)
    exact round3_mono hm

/-- C2 (counterexample): after the final rounding to 3 decimal places,
the THIRD sub-score is not strictly increasing below density 5, and not
equal to density/5 there: densities 0.001 and 0.002 both score 0.0. -/
theorem third_score_not_strictly_increasing_below_five :
    densityOf 1 5000 < densityOf 2 9999 ∧
    densityOf 2 9999 < 5 ∧
    calculate_third_score 1 5000 = calculate_third_score 2 9999 ∧
    calculate_third_score 2 9999 ≠ densityOf 2 9999 / 5 := by
  refine ⟨by norm_num [densityOf], by norm_num [densityOf], ?_, ?_⟩
  · norm_num [calculate_third_score, round3, rhe]
  · norm_num [calculate_third_score, densityOf, round3, rhe]

/-- C2 (witness): the amended shape at concrete inputs — density 10
(in the adequate band) scores 1.0; density 50 follows the rounded decay
formula and stays at least 0.5; density 100 scores no more than density
50; and rounded scores are monotone below density 5. -/
theorem third_score_shape_instances :
    calculate_third_score 10 5000 = 1 ∧
    calculate_third_score 10 1000 =
      round3 (max (1/2) (1 - (densityOf 10 1000 - 15) / 20)) ∧
    1/2 ≤ calculate_third_score 10 1000 ∧
    calculate_third_score 20 1000 ≤ calculate_third_score 10 1000 ∧
    calculate_third_score 1 5000 ≤ calculate_third_score 2 9999 ∧
    densityOf 1 5000 / 5 < densityOf 2 9999 / 5 := by
  refine ⟨third_score_shape_of_density.1 10 5000 (by norm_num)
      (by norm_num [densityOf]) (by norm_num [densityOf]),
    (third_score_shape_of_density.2.2.2.2.1 10 1000 (by norm_num)
      (by norm_num [densityOf])).1,
    (third_score_shape_of_density.2.2.2.2.1 10 1000 (by norm_num)
      (by norm_num [densityOf])).2,
    third_score_shape_of_density.2.2.2.2.2 10 1000 20 1000 (by norm_num)
      (by norm_num) (by norm_num [densityOf]) (by norm_num [densityOf]),
    third_score_shape_of_density.2.2.1 1 5000 2 9999 (by norm_num)
      (by norm_num) (by norm_num [densityOf]) (by norm_num [densityOf]),
    third_score_shape_of_density.2.2.2.1 1 5000 2 9999 (by norm_num)
      (by norm_num) (by norm_num [densityOf]) (by norm_num [densityOf])⟩

/-- C3: `calculate_p6_score` returns exactly the equal-weight average
0.5 READ + 0.5 THIRD, rounded to 3 decimal places; with READ = 0.8 and
THIRD = 1.0 it returns 0.900. -/
theorem p6_is_rounded_equal_weight_average (read_score third_score : ℚ) :
    calculate_p6_score read_score third_score =
      round3 ((read_score + third_score) / 2) ∧
    calculate_p6_score (8/10) 1 = 9/10 := by
  constructor
  · unfold calculate_p6_score
    congr 1
    ring
  · norm_num [calculate_p6_score, round3, rhe]

/-- C1 (code bug): `calculate_read_score` exceeds 1 on a negative
grade-level metric.  `min grade_level 20` caps the grade only from
above; for `flesch_kincaid_grade = -3.4` (attainable by the
Flesch-Kincaid formula on very simple text) the normalized grade term
is 1.17, so with maximal reading ease the READ sub-score is 1.057, and
the combined P6 score with a THIRD sub-score of 1.0 is 1.028 — both
outside [0,1], contradicting the function's own docstring ("Normalize
readability scores to 0-1 scale"). -/
theorem read_score_exceeds_one_on_negative_grade :
    calculate_read_score (some negGradeMetrics) = 1057/1000 ∧
    1 < calculate_read_score (some negGradeMetrics) ∧
    calculate_p6_score (calculate_read_score (some negGradeMetrics)) 1 =
      1028/1000 ∧
    1 < calculate_p6_score (calculate_read_score (some negGradeMetrics)) 1 := by
  have h1 : calculate_read_score (some negGradeMetrics) = 1057/1000 := by
    norm_num [calculate_read_score, negGradeMetrics, round3, rhe,
      max_def, min_def]
  have h2 : calculate_p6_score ((1057 : ℚ)/1000) 1 = 1028/1000 := by
    norm_num [calculate_p6_score, round3, rhe]
  rw [h1]
  refine ⟨rfl, by norm_num, h2, by rw [h2]; norm_num⟩

/-- C10: an absent metrics record (Python `None`, or the falsy empty
dict) makes `calculate_read_score` return 0.0 — a plain value, total,
not a failure — which is exactly the score of a document with
worst-case readability metrics, so the two are indistinguishable at
this interface. -/
theorem absent_metrics_score_zero :
    calculate_read_score none = 0 ∧
    calculate_read_score (some worstMetrics) = 0 ∧
    calculate_read_score none = calculate_read_score (some worstMetrics) := by
  have h1 : calculate_read_score none = 0 := rfl
  have h2 : calculate_read_score (some worstMetrics) = 0 := by
    norm_num [calculate_read_score, worstMetrics, round3, rhe,
      max_def, min_def]
  exact ⟨h1, h2, by rw [h1, h2]⟩

/-- C8: `analyze_readability` yields the complete ten-field record or
no record at all (the record type makes a half-filled record impossible),
and it yields no record exactly when the text is absent or shorter than
100 characters. -/
theorem readability_all_or_nothing (lib : TextstatLib) (t : List Nat) :
    analyze_readability lib none = none ∧
    (analyze_readability lib (some t) = none ↔ t.length < 100) ∧
    (100 ≤ t.length → analyze_readability lib (some t) =
      some
        { flesch_reading_ease := lib.flesch_reading_ease t
          flesch_kincaid_grade := lib.flesch_kincaid_grade t
          gunning_fog := lib.gunning_fog t
          smog_index := lib.smog_index t
          coleman_liau_index := lib.coleman_liau_index t
          automated_readability_index := lib.automated_readability_index t
          dale_chall_readability_score := lib.dale_chall_readability_score t
          difficult_words := lib.difficult_words t
          linsear_write_formula := lib.linsear_write_formula t
          text_standard := lib.text_standard t }) := by
  refine ⟨rfl, ?_, ?_⟩
  · cases t with
    | nil => simp [analyze_readability]
    | cons a as =>
      simp [analyze_readability]
      omega
  · intro h
    have hne : t.isEmpty = false := by
      cases t with
      | nil => simp at h
      | cons a as => rfl
    simp [analyze_readability, hne, Nat.not_lt.2 h]

/-- C8 (witness): at 50 characters no record is produced; at 100
characters the full record is produced. -/
theorem readability_all_or_nothing_witness :
    analyze_readability zeroTextstat (some shortText) = none ∧
    analyze_readability zeroTextstat (some goodText) =
      some
        { flesch_reading_ease := 0
          flesch_kincaid_grade := 0
          gunning_fog := 0
          smog_index := 0
          coleman_liau_index := 0
          automated_readability_index := 0
          dale_chall_readability_score := 0
          difficult_words := 0
          linsear_write_formula := 0
          text_standard := 0 } := by
  constructor
  · exact (readability_all_or_nothing zeroTextstat shortText).2.1.mpr
      (by simp [shortText])
  · exact (readability_all_or_nothing zeroTextstat goodText).2.2
      (by simp [goodText])

/-! Batch orchestration lemmas. -/

theorem analyzeAllLoop_eq (lib : TextstatLib)
    (env : String → Option (List Nat)) :
    ∀ (ps : List (String × String)) (acc : List AnalysisResult),
      analyzeAllLoop lib env ps acc = acc ++ batchResults lib env ps := by
  intro ps
  induction ps with
  | nil => intro acc; simp [analyzeAllLoop, batchResults]
  | cons pu rest ih =>
    intro acc
    cases h : analyze_platform lib env pu.1 pu.2 with
    | none => simp [analyzeAllLoop, batchResults, List.filterMap_cons, h, ih]
    | some r =>
      simp [analyzeAllLoop, batchResults, List.filterMap_cons, h, ih]

/-- C9: `analyze_all` never resets `self.results`: the returned list is
the prior contents extended by this batch's successful entries, the
policy table is untouched, and a second call on the updated instance
appends the same batch again (duplicates). -/
theorem analyze_all_appends_results (lib : TextstatLib)
    (env : String → Option (List Nat)) (st : AnalyzerState) :
    (analyze_all lib env st).2 =
      st.results ++ batchResults lib env st.policies ∧
    (analyze_all lib env st).1.policies = st.policies ∧
    (analyze_all lib env (analyze_all lib env st).1).2 =
      st.results ++ batchResults lib env st.policies ++
        batchResults lib env st.policies := by
  refine ⟨analyzeAllLoop_eq lib env st.policies st.results, rfl, ?_⟩
  simp [analyze_all, analyzeAllLoop_eq, List.append_assoc]

theorem batchResults_length (lib : TextstatLib)
    (env : String → Option (List Nat)) :
    ∀ ps : List (String × String),
      (∀ pu ∈ ps, ∀ t, env pu.2 = some t → 100 ≤ t.length) →
      (batchResults lib env ps).length =
        ps.length - ps.countP (fun pu => (env pu.2).isNone) := by
  intro ps
  induction ps with
  | nil => intro _; simp [batchResults]
  | cons pu rest ih =>
    intro h
    have hc : rest.countP (fun pu => (env pu.2).isNone) ≤ rest.length :=
      List.countP_le_length _
    have ihr := ih (fun q hq t ht => h q (List.mem_cons_of_mem _ hq) t ht)
    cases he : env pu.2 with
    | none =>
      have hap : analyze_platform lib env pu.1 pu.2 = none := by
        simp [analyze_platform, he]
      simp only [batchResults, List.filterMap_cons, hap, List.countP_cons,
        he, Option.isNone_none, List.length_cons]
      rw [batchResults] at ihr
      rw [ihr]
      simp
    | some t =>
      have hlen : 100 ≤ t.length := h pu (List.mem_cons_self _ _) t he
      have hne : t.isEmpty = false := by
        cases t with
        | nil => simp at hlen
        | cons a as => rfl
      have hap : analyze_platform lib env pu.1 pu.2 = some
          { platform := pu.1
            url := pu.2
            word_count := wordCount t
            character_count := t.length
            flesch_reading_ease := round2 (lib.flesch_reading_ease t)
            flesch_kincaid_grade := round2 (lib.flesch_kincaid_grade t)
            gunning_fog := round2 (lib.gunning_fog t)
            text_standard := round2 (lib.text_standard t)
            third_party_mentions := analyze_third_party_mentions t
            read_score := calculate_read_score (some
              { flesch_reading_ease := lib.flesch_reading_ease t
                flesch_kincaid_grade := lib.flesch_kincaid_grade t
                gunning_fog := lib.gunning_fog t
                smog_index := lib.smog_index t
                coleman_liau_index := lib.coleman_liau_index t
                automated_readability_index :=
                  lib.automated_readability_index t
                dale_chall_readability_score :=
                  lib.dale_chall_readability_score t
                difficult_words := lib.difficult_words t
                linsear_write_formula := lib.linsear_write_formula t
                text_standard := lib.text_standard t })
            third_score := calculate_third_score
              (analyze_third_party_mentions t) t.length
            p6_score := calculate_p6_score
              (calculate_read_score (some
                { flesch_reading_ease := lib.flesch_reading_ease t
                  flesch_kincaid_grade := lib.flesch_kincaid_grade t
                  gunning_fog := lib.gunning_fog t
                  smog_index := lib.smog_index t
                  coleman_liau_index := lib.coleman_liau_index t
                  automated_readability_index :=
                    lib.automated_readability_index t
                  dale_chall_readability_score :=
                    lib.dale_chall_readability_score t
                  difficult_words := lib.difficult_words t
                  linsear_write_formula := lib.linsear_write_formula t
                  text_standard := lib.text_standard t }))
              (calculate_third_score (analyze_third_party_mentions t)
                t.length) } := by
        simp [analyze_platform, he, hne, analyze_readability,
          Nat.not_lt.2 hlen]
      simp only [batchResults, List.filterMap_cons, hap, List.countP_cons,
        he, Option.isNone_some, List.length_cons]
      rw [batchResults] at ihr
      rw [ihr]
      simp
      omega

/-- C6 (amended): in a batch of N documents, `analyze_all` (from a fresh
results list) yields exactly one entry per document that passes every
stage; when each document whose fetch succeeds has at least 100
characters of text, that is exactly N − M entries where M is the number
of fetch failures.  The loop is a total function, so no exception can
escape the batch run. -/
theorem batch_count_with_short_doc_exclusion (lib : TextstatLib)
    (env : String → Option (List Nat)) (ps : List (String × String))
    (h : ∀ pu ∈ ps, ∀ t, env pu.2 = some t → 100 ≤ t.length) :
    (analyze_all lib env ⟨ps, []⟩).2.length =
      ps.length - ps.countP (fun pu => (env pu.2).isNone) := by
  have hl : (analyze_all lib env ⟨ps, []⟩).2 = batchResults lib env ps := by
    simpa using analyzeAllLoop_eq lib env ps []
  rw [hl, batchResults_length lib env ps h]

/-- C6 (counterexample): one document whose fetch succeeds with a
50-character text: zero fetch failures, yet the results list is empty,
not of length N − M = 1. -/
theorem batch_count_counterexample :
    (envShort "u").isNone = false ∧
    (analyze_all zeroTextstat envShort ⟨psSingle, []⟩).2.length = 0 ∧
    (analyze_all zeroTextstat envShort ⟨psSingle, []⟩).2.length ≠
      psSingle.length - psSingle.countP (fun pu => (envShort pu.2).isNone) := by
  have h0 : (analyze_all zeroTextstat envShort ⟨psSingle, []⟩).2.length = 0 := by
    simp [analyze_all, psSingle, analyzeAllLoop, analyze_platform, envShort,
      analyze_readability, shortText]
  refine ⟨rfl, h0, ?_⟩
  rw [h0]
  simp [psSingle, envShort]

/-- C6 (witness): two documents, one failing fetch and one fetchable at
100 characters: exactly 2 − 1 = 1 entry. -/
theorem batch_count_witness :
    (analyze_all zeroTextstat envMixed ⟨psMixed, []⟩).2.length = 1 := by
  have h := batch_count_with_short_doc_exclusion zeroTextstat envMixed psMixed ?_
  · rw [h]
    simp [psMixed, envMixed]
  · intro pu hpu t ht
    simp [psMixed] at hpu
    rcases hpu with h1 | h2
    · rw [h1] at ht
      simp [envMixed, goodText] at ht
      simp [← ht, goodText]
    · rw [h2] at ht
      simp [envMixed] at ht

/-- C7 (amended): when every document of the batch fails, the run
completes normally — `generate_report` prints its log line and returns
no report (`none`), and `main` finishes on its ordinary path (modelled:
the `Except` error channel is never used).  The absent report and the
log line are the only batch-end failure indications. -/
theorem all_failed_run_completes_normally (lib : TextstatLib)
    (env : String → Option (List Nat))
    (h : ∀ pu ∈ initPolicies, env pu.2 = none) :
    mainRun lib env = Except.ok none := by
  have h1 : env "https://www.facebook.com/privacy/policy/" = none :=
    h ("Meta", "https://www.facebook.com/privacy/policy/")
      (by simp [initPolicies])
  have h2 : env "https://policies.google.com/privacy" = none :=
    h ("Google", "https://policies.google.com/privacy")
      (by simp [initPolicies])
  have h3 : env "https://privacy.microsoft.com/en-us/privacystatement" = none :=
    h ("Microsoft", "https://privacy.microsoft.com/en-us/privacystatement")
      (by simp [initPolicies])
  have h4 : env "https://proton.me/legal/privacy" = none :=
    h ("Proton", "https://proton.me/legal/privacy")
      (by simp [initPolicies])
  simp [mainRun, analyze_all, initState, initPolicies, analyzeAllLoop,
    analyze_platform, h1, h2, h3, h4, generate_report]

/-- C7 (counterexample): with every fetch failing, the batch run's
outcome is `Except.ok none` — a normal completion carrying an absent
report — not a failure signal: the error channel of the run is unused
and `main` reaches its completion banner. -/
theorem all_failed_no_failure_signal :
    generate_report [] = none ∧
    mainRun zeroTextstat envAllFail = Except.ok none := by
  exact ⟨rfl, rfl⟩

/-- C7 (witness): the amended statement applied to the all-failures
environment. -/
theorem all_failed_witness :
    mainRun zeroTextstat (fun _ => none) = Except.ok none :=
  all_failed_run_completes_normally zeroTextstat (fun _ => none)
    (fun _ _ => rfl)

/-! Substring-count and word-count lemmas for the concrete texts. -/

theorem startsWith_mem : ∀ kw t : List Nat, startsWith kw t = true →
    ∀ k ∈ kw, k ∈ t := by
  intro kw
  induction kw with
  | nil => intro t _ k hk; cases hk
  | cons k0 ks ih =>
    intro t hsw k hk
    cases t with
    | nil => simp [startsWith] at hsw
    | cons c cs =>
      rw [startsWith] at hsw
      by_cases he : k0 = c
      · rw [if_pos he] at hsw
        rcases List.mem_cons.mp hk with h | h
        · subst h; rw [he]; exact List.mem_cons_self _ _
        · exact List.mem_cons_of_mem _ (ih cs hsw k h)
      · rw [if_neg he] at hsw
        cases hsw

theorem countOccS_eq_zero (kw : List Nat) (k : Nat) (hk : k ∈ kw) :
    ∀ t : List Nat, k ∉ t → ∀ skip, countOccS kw t skip = 0 := by
  intro t
  induction t with
  | nil => intro _ skip; cases skip <;> rfl
  | cons c cs ih =>
    intro hnt skip
    have hcs : k ∉ cs := fun h => hnt (List.mem_cons_of_mem _ h)
    cases skip with
    | succ s => rw [countOccS]; exact ih hcs s
    | zero =>
      have hsw : startsWith kw (c :: cs) = false := by
        cases hsw : startsWith kw (c :: cs) with
        | true => exact absurd (startsWith_mem kw (c :: cs) hsw k hk) hnt
        | false => rfl
      rw [countOccS, hsw]
      simp only [Bool.false_eq_true, if_false]
      exact ih hcs 0

theorem mem_repW {w : List Nat} : ∀ {n c}, c ∈ repW w n → c ∈ w := by
  intro n
  induction n with
  | zero => intro c h; cases h
  | succ m ih =>
    intro c h
    rcases List.mem_append.mp h with h | h
    · exact h
    · exact ih h

theorem repW_length (w : List Nat) : ∀ n, (repW w n).length = n * w.length := by
  intro n
  induction n with
  | zero => simp [repW]
  | succ m ih => simp [repW, ih]; ring

theorem map_repW (f : Nat → Nat) (w : List Nat) :
    ∀ n, (repW w n).map f = repW (w.map f) n := by
  intro n
  induction n with
  | zero => rfl
  | succ m ih => simp [repW, ih]

theorem countWordsAux_word : ∀ w : List Nat,
    (∀ c ∈ w, isWsCode c = false) → ∀ rest,
    countWordsAux true (w ++ rest) = countWordsAux true rest := by
  intro w
  induction w with
  | nil => intro _ rest; rfl
  | cons c cs ih =>
    intro h rest
    have hc : isWsCode c = false := h c (List.mem_cons_self _ _)
    have hcs : ∀ x ∈ cs, isWsCode x = false :=
      fun x hx => h x (List.mem_cons_of_mem _ hx)
    rw [List.cons_append, countWordsAux, hc]
    simp only [Bool.false_eq_true, if_false, if_true, Nat.zero_add]
    exact ih hcs rest

theorem countWordsAux_block (wd : List Nat) (hne : wd ≠ [])
    (hw : ∀ c ∈ wd, isWsCode c = false) (rest : List Nat) :
    countWordsAux false (wd ++ (32 :: rest)) = 1 + countWordsAux false rest := by
  cases wd with
  | nil => exact absurd rfl hne
  | cons c cs =>
    have hc : isWsCode c = false := hw c (List.mem_cons_self _ _)
    have hcs : ∀ x ∈ cs, isWsCode x = false :=
      fun x hx => hw x (List.mem_cons_of_mem _ hx)
    rw [List.cons_append, countWordsAux, hc]
    simp only [Bool.false_eq_true, if_false, if_true]
    rw [countWordsAux_word cs hcs (32 :: rest)]
    simp [countWordsAux, isWsCode]

theorem countWordsAux_last (wd : List Nat) (hne : wd ≠ [])
    (hw : ∀ c ∈ wd, isWsCode c = false) :
    countWordsAux false wd = 1 := by
  cases wd with
  | nil => exact absurd rfl hne
  | cons c cs =>
    have hc : isWsCode c = false := hw c (List.mem_cons_self _ _)
    have hcs : ∀ x ∈ cs, isWsCode x = false :=
      fun x hx => hw x (List.mem_cons_of_mem _ hx)
    simp only [countWordsAux, hc, Bool.false_eq_true, if_false, if_true]
    have h := countWordsAux_word cs hcs []
    simp only [List.append_nil] at h
    simp [h, countWordsAux]

theorem countWordsAux_repBlock (wd : List Nat) (hne : wd ≠ [])
    (hw : ∀ c ∈ wd, isWsCode c = false) :
    ∀ n rest, countWordsAux false (repW (wd ++ [32]) n ++ rest) =
      n + countWordsAux false rest := by
  intro n
  induction n with
  | zero => intro rest; simp [repW]
  | succ m ih =>
    intro rest
    have hassoc : repW (wd ++ [32]) (m + 1) ++ rest =
        wd ++ (32 :: (repW (wd ++ [32]) m ++ rest)) := by
      simp [repW]
    rw [hassoc, countWordsAux_block wd hne hw, ih]
    omega

theorem sellW_decomp : sellW = [115, 101, 108, 108] ++ [32] := by decide

theorem xW_decomp : xW = [120] ++ [32] := by decide

theorem sell_codes : strCodes "sell" = [115, 101, 108, 108] := by decide

theorem countOccS_sell_block :
    ∀ rest, countOccS [115, 101, 108, 108] (sellW ++ rest) 0 =
      1 + countOccS [115, 101, 108, 108] rest 0 := by
  intro rest
  simp [sellW, countOccS, startsWith]

theorem countOccS_repW_sell :
    ∀ n rest, countOccS [115, 101, 108, 108] (repW sellW n ++ rest) 0 =
      n + countOccS [115, 101, 108, 108] rest 0 := by
  intro n
  induction n with
  | zero => intro rest; simp [repW]
  | succ m ih =>
    intro rest
    have hassoc : repW sellW (m + 1) ++ rest =
        sellW ++ (repW sellW m ++ rest) := by
      simp [repW]
    rw [hassoc, countOccS_sell_block, ih]
    omega

theorem mem_T1 : ∀ c ∈ T1, c ∈ ([115, 101, 108, 32, 120] : List Nat) := by
  intro c hc
  have hsub1 : ∀ x ∈ sellW, x ∈ ([115, 101, 108, 32, 120] : List Nat) := by
    decide
  have hsub2 : ∀ x ∈ xW, x ∈ ([115, 101, 108, 32, 120] : List Nat) := by
    decide
  rcases List.mem_append.mp hc with h | h
  · rcases List.mem_append.mp h with h2 | h2
    · exact hsub1 c (mem_repW h2)
    · exact hsub2 c (mem_repW h2)
  · simp at h
    simp [h]

theorem mem_T1_tail : ∀ c ∈ repW xW 989 ++ [120],
    c ∈ ([120, 32] : List Nat) := by
  intro c hc
  have hsub : ∀ x ∈ xW, x ∈ ([120, 32] : List Nat) := by decide
  rcases List.mem_append.mp hc with h | h
  · exact hsub c (mem_repW h)
  · simp at h
    simp [h]

theorem mem_T2_tail : ∀ c ∈ (List.replicate 4950 120 : List Nat),
    c ∈ ([120, 32] : List Nat) := by
  intro c hc
  rw [List.eq_of_mem_replicate hc]
  simp

theorem mem_T2 : ∀ c ∈ T2, c ∈ ([115, 101, 108, 32, 120] : List Nat) := by
  intro c hc
  have hsub1 : ∀ x ∈ sellW, x ∈ ([115, 101, 108, 32, 120] : List Nat) := by
    decide
  rcases List.mem_append.mp hc with h | h
  · exact hsub1 c (mem_repW h)
  · rw [List.eq_of_mem_replicate h]
    simp

theorem T1_lower : T1.map toLowerCode = T1 := by
  have h1 : sellW.map toLowerCode = sellW := by decide
  have h2 : xW.map toLowerCode = xW := by decide
  have h3 : ([120] : List Nat).map toLowerCode = [120] := by decide
  rw [T1, List.map_append, List.map_append, map_repW, map_repW, h1, h2, h3]

theorem T2_lower : T2.map toLowerCode = T2 := by
  have h1 : sellW.map toLowerCode = sellW := by decide
  have h2 : toLowerCode 120 = 120 := by decide
  rw [T2, List.map_append, map_repW, h1, List.map_replicate, h2]

theorem T1_length : T1.length = 2029 := by
  simp [T1, repW_length, sellW, xW]

theorem T2_length : T2.length = 5000 := by
  rw [T2, List.length_append, repW_length, List.length_replicate]
  norm_num [sellW]

theorem T1_wordCount : wordCount T1 = 1000 := by
  have h1 : ∀ c ∈ ([115, 101, 108, 108] : List Nat), isWsCode c = false := by
    decide
  have h2 : ∀ c ∈ ([120] : List Nat), isWsCode c = false := by decide
  rw [wordCount, T1, sellW_decomp, xW_decomp, List.append_assoc,
    countWordsAux_repBlock [115, 101, 108, 108] (by decide) h1,
    countWordsAux_repBlock [120] (by decide) h2,
    countWordsAux_last [120] (by decide) h2]

theorem not_mem_T1 (c : Nat) (h : c ∉ ([115, 101, 108, 32, 120] : List Nat)) :
    c ∉ T1 := fun hc => h (mem_T1 c hc)

theorem not_mem_T2 (c : Nat) (h : c ∉ ([115, 101, 108, 32, 120] : List Nat)) :
    c ∉ T2 := fun hc => h (mem_T2 c hc)

theorem T1_mentions : analyze_third_party_mentions T1 = 10 := by
  have hne : T1 ≠ [] := by
    intro h
    have hl := T1_length
    rw [h] at hl
    simp at hl
  rw [analyze_third_party_mentions, if_neg hne]
  simp only [T1_lower, keywords, countOcc, List.map_cons, List.map_nil,
    List.sum_cons, List.sum_nil]
  rw [countOccS_eq_zero (strCodes "third party") 116 (by decide) T1
      (not_mem_T1 116 (by decide)) 0,
    countOccS_eq_zero (strCodes "third-party") 116 (by decide) T1
      (not_mem_T1 116 (by decide)) 0,
    countOccS_eq_zero (strCodes "partners") 112 (by decide) T1
      (not_mem_T1 112 (by decide)) 0,
    countOccS_eq_zero (strCodes "affiliates") 97 (by decide) T1
      (not_mem_T1 97 (by decide)) 0,
    countOccS_eq_zero (strCodes "share with") 104 (by decide) T1
      (not_mem_T1 104 (by decide)) 0,
    countOccS_eq_zero (strCodes "disclose to") 100 (by decide) T1
      (not_mem_T1 100 (by decide)) 0,
    countOccS_eq_zero (strCodes "transfer") 116 (by decide) T1
      (not_mem_T1 116 (by decide)) 0,
    countOccS_eq_zero (strCodes "advertisers") 97 (by decide) T1
      (not_mem_T1 97 (by decide)) 0,
    countOccS_eq_zero (strCodes "service providers") 114 (by decide) T1
      (not_mem_T1 114 (by decide)) 0,
    countOccS_eq_zero (strCodes "vendors") 118 (by decide) T1
      (not_mem_T1 118 (by decide)) 0]
  have hsell : countOccS (strCodes "sell") T1 0 = 10 := by
    rw [sell_codes]
    have hT : T1 = repW sellW 10 ++ (repW xW 989 ++ [120]) := by
      rw [T1, List.append_assoc]
    rw [hT, countOccS_repW_sell,
      countOccS_eq_zero [115, 101, 108, 108] 115 (by decide) _
        (fun h => absurd (mem_T1_tail 115 h) (by decide)) 0]
  rw [hsell]
  norm_num

theorem T2_mentions : analyze_third_party_mentions T2 = 10 := by
  have hne : T2 ≠ [] := by
    intro h
    have hl := T2_length
    rw [h] at hl
    simp at hl
  rw [analyze_third_party_mentions, if_neg hne]
  simp only [T2_lower, keywords, countOcc, List.map_cons, List.map_nil,
    List.sum_cons, List.sum_nil]
  rw [countOccS_eq_zero (strCodes "third party") 116 (by decide) T2
      (not_mem_T2 116 (by decide)) 0,
    countOccS_eq_zero (strCodes "third-party") 116 (by decide) T2
      (not_mem_T2 116 (by decide)) 0,
    countOccS_eq_zero (strCodes "partners") 112 (by decide) T2
      (not_mem_T2 112 (by decide)) 0,
    countOccS_eq_zero (strCodes "affiliates") 97 (by decide) T2
      (not_mem_T2 97 (by decide)) 0,
    countOccS_eq_zero (strCodes "share with") 104 (by decide) T2
      (not_mem_T2 104 (by decide)) 0,
    countOccS_eq_zero (strCodes "disclose to") 100 (by decide) T2
      (not_mem_T2 100 (by decide)) 0,
    countOccS_eq_zero (strCodes "transfer") 116 (by decide) T2
      (not_mem_T2 116 (by decide)) 0,
    countOccS_eq_zero (strCodes "advertisers") 97 (by decide) T2
      (not_mem_T2 97 (by decide)) 0,
    countOccS_eq_zero (strCodes "service providers") 114 (by decide) T2
      (not_mem_T2 114 (by decide)) 0,
    countOccS_eq_zero (strCodes "vendors") 118 (by decide) T2
      (not_mem_T2 118 (by decide)) 0]
  have hsell : countOccS (strCodes "sell") T2 0 = 10 := by
    rw [sell_codes, T2, countOccS_repW_sell,
      countOccS_eq_zero [115, 101, 108, 108] 115 (by decide) _
        (fun h => absurd (mem_T2_tail 115 h) (by decide)) 0]
  rw [hsell]
  norm_num

/-- C4 (amended): any text of exactly 5000 characters (for example,
1000 words averaging the assumed 5 characters per word) with exactly 10
disclosure-keyword matches gets `mentions_per_1000_words = 10` and a
THIRD sub-score of exactly 1.0 — the code derives the word estimate
from character length / 5, so character length, not the exact word
count, is the operative quantity. -/
theorem third_band_needs_5000_chars (text : List Nat)
    (h1 : text.length = 5000)
    (h2 : analyze_third_party_mentions text = 10) :
    densityOf (analyze_third_party_mentions text) text.length = 10 ∧
    calculate_third_score (analyze_third_party_mentions text)
      text.length = 1 := by
  rw [h1, h2]
  constructor
  · norm_num [densityOf]
  · norm_num [calculate_third_score, round3, rhe]

/-- C4 (counterexample): a prose text of exactly 1000 words with
exactly 10 keyword matches but only 2029 characters: the pipeline
computes `mentions_per_1000_words` = 50000/2029 ≈ 24.6, not 10, and the
THIRD sub-score is 0.518, not 1.0. -/
theorem thousand_word_text_density_not_ten :
    wordCount T1 = 1000 ∧
    analyze_third_party_mentions T1 = 10 ∧
    densityOf (analyze_third_party_mentions T1) T1.length ≠ 10 ∧
    calculate_third_score (analyze_third_party_mentions T1)
      T1.length ≠ 1 := by
  refine ⟨T1_wordCount, T1_mentions, ?_, ?_⟩
  · rw [T1_mentions, T1_length]
    norm_num [densityOf]
  · rw [T1_mentions, T1_length]
    norm_num [calculate_third_score, round3, rhe, max_def]

/-- C4 (witness): the 5000-character text `T2` with 10 matches indeed
gets density 10 and THIRD sub-score 1.0. -/
theorem third_band_witness_5000 :
    densityOf (analyze_third_party_mentions T2) T2.length = 10 ∧
    calculate_third_score (analyze_third_party_mentions T2)
      T2.length = 1 :=
  third_band_needs_5000_chars T2 T2_length T2_mentions

/-- C5 (amended): no stage raises a length-based error.  Sanitization
returns the cleaned text as an ordinary value whatever its length
(whitespace-only raw content yields the empty text), and
`analyze_readability` silently returns no record (Python `None`, not an
exception) whenever the sanitized text is shorter than 100 characters;
the document is then skipped. -/
theorem sanitize_returns_value_not_error (lib : TextstatLib)
    (raw : List Nat) :
    extract_text_core raw = some (sanitize raw) ∧
    ((∀ c ∈ raw, isWsCode c = true) → sanitize raw = []) ∧
    ((sanitize raw).length < 100 →
      analyze_readability lib (some (sanitize raw)) = none) := by
  refine ⟨rfl, ?_, ?_⟩
  · intro h
    have hd : raw.dropWhile (fun c => isWsCode c) = [] :=
      List.dropWhile_eq_nil_iff.mpr h
    simp [sanitize, stripCodes, hd, collapseWs, collapseWsAux]
  · intro h
    rcases hs : sanitize raw with _ | ⟨a, as⟩
    · simp [analyze_readability]
    · rw [hs] at h
      simp only [List.length_cons] at h
      simp [analyze_readability]
      omega

/-- C5 (counterexample): empty raw content is not rejected anywhere:
extraction returns the empty text as a success value (there is no
`EmptyContentError` in the code), and the readability stage returns the
silent absent record `none`, not an error.  The same happens for
whitespace-only raw content. -/
theorem empty_content_no_error :
    extract_text_core [] = some [] ∧
    sanitize [] = [] ∧
    analyze_readability zeroTextstat (some ([] : List Nat)) = none ∧
    extract_text_core (strCodes "   ") = some [] := by
  exact ⟨rfl, rfl, rfl, by decide⟩

/-- C5 (witness): a whitespace-only document sanitizes to the empty
text and produces no readability record. -/
theorem sanitize_short_witness :
    sanitize [32, 32] = [] ∧
    analyze_readability zeroTextstat (some (sanitize [32, 32])) = none := by
  have h := sanitize_returns_value_not_error zeroTextstat [32, 32]
  have hz : sanitize [32, 32] = [] := h.2.1 (by decide)
  exact ⟨hz, h.2.2 (by rw [hz]; decide)⟩

end PPA
